import Mathlib

/-!
# Verification of the pair-trading bot's rebalancing core

Shallow embedding of the position-lifecycle / hedge-rebalancing core of the
repository (files `core/mt5_trade_executor.py`, `strategy/hybrid_rebalancer.py`,
`core/setup_recovery.py`, `core/setup_tracker.py`) over the rationals.

Python floats are idealised as `ℚ`; Python's `round` builtin (round half to
even, "banker's rounding") is modelled by `rhe`; Python dicts keyed by string
ids are modelled as functions `String → Option _`; wall-clock instants
(`time.time()`, `datetime.now()`) are explicit `ℚ` parameters; the MT5 broker
API is an explicit oracle record.  Log strings (`logger.*`) and file
persistence are not modelled; the `reason` field of a hedge adjustment (a
formatted log string) is omitted.
-/

/-- Python's `round(x)` builtin on a rational value: round to the nearest
integer, ties to the even integer ("banker's rounding"). -/
def rhe (q : ℚ) : ℤ :=
  if q - ⌊q⌋ < 1 / 2 then ⌊q⌋
  else if 1 / 2 < q - ⌊q⌋ then ⌊q⌋ + 1
  else if ⌊q⌋ % 2 = 0 then ⌊q⌋ else ⌊q⌋ + 1

/-- Python's `round(x, 2)`: round to two decimal places, ties to even. -/
def round2 (q : ℚ) : ℚ := (rhe (q * 100) : ℚ) / 100

theorem rhe_intCast (n : ℤ) : rhe (n : ℚ) = n := by
  unfold rhe
  rw [Int.floor_intCast]
  norm_num

theorem rhe_le (q : ℚ) : (rhe q : ℚ) ≤ q + 1 / 2 := by
  unfold rhe
  have hfl : (⌊q⌋ : ℚ) ≤ q := Int.floor_le q
  split_ifs with h1 h2 h3
  · linarith
  · push_cast; linarith
  · linarith
  · push_cast
    have : q - ⌊q⌋ = 1 / 2 := le_antisymm (not_lt.mp h2) (not_lt.mp h1)
    linarith

theorem le_rhe (q : ℚ) : q - 1 / 2 ≤ (rhe q : ℚ) := by
  unfold rhe
  have hfl : q < ⌊q⌋ + 1 := Int.lt_floor_add_one q
  split_ifs with h1 h2 h3
  · linarith
  · push_cast; linarith
  · linarith
  · push_cast
    have : q - ⌊q⌋ = 1 / 2 := le_antisymm (not_lt.mp h2) (not_lt.mp h1)
    linarith

theorem rhe_mono {q r : ℚ} (h : q ≤ r) : rhe q ≤ rhe r := by
  by_contra hcon
  push_neg at hcon
  have h1 : (rhe r : ℚ) + 1 ≤ (rhe q : ℚ) := by exact_mod_cast Int.add_one_le_iff.mpr hcon
  have h2 : (rhe q : ℚ) ≤ q + 1 / 2 := rhe_le q
  have h3 : r - 1 / 2 ≤ (rhe r : ℚ) := le_rhe r
  have hqr : q = r := le_antisymm h (by linarith)
  rw [hqr] at hcon
  exact lt_irrefl _ hcon

/-- Volume quantization shared by `place_market_order` (lines 140–156) and
`place_spread_orders` (lines 303–337) of `core/mt5_trade_executor.py`:
`round(raw / step) * step`, then clamp to the broker's `[min_lot, max_lot]`
(written `max(volume_min, min(volume_max, v))` in `place_spread_orders`). -/
def quantize (step min_lot max_lot x : ℚ) : ℚ :=
  max min_lot (min max_lot ((rhe (x / step) : ℚ) * step))

theorem quantize_mono {step : ℚ} (hstep : 0 < step) (min_lot max_lot : ℚ)
    {x y : ℚ} (h : x ≤ y) :
    quantize step min_lot max_lot x ≤ quantize step min_lot max_lot y := by
  unfold quantize
  have hdiv : x / step ≤ y / step := div_le_div_of_nonneg_right h hstep.le
  have hr : (rhe (x / step) : ℚ) ≤ (rhe (y / step) : ℚ) := by
    exact_mod_cast rhe_mono hdiv
  have hm : (rhe (x / step) : ℚ) * step ≤ (rhe (y / step) : ℚ) * step :=
    mul_le_mul_of_nonneg_right hr hstep.le
  exact max_le_max le_rfl (min_le_min le_rfl hm)

theorem quantize_fixed {step : ℚ} (hstep : step ≠ 0) {min_lot max_lot y : ℚ}
    (hy : ∃ m : ℤ, y = m * step) (h1 : min_lot ≤ y) (h2 : y ≤ max_lot) :
    quantize step min_lot max_lot y = y := by
  obtain ⟨m, rfl⟩ := hy
  unfold quantize
  rw [mul_div_cancel_right₀ _ hstep, rhe_intCast, min_eq_right h2, max_eq_right h1]

theorem quantize_idem {step : ℚ} (hstep : 0 < step) {min_lot max_lot : ℚ}
    (hmm : min_lot ≤ max_lot)
    (ha : ∃ a : ℤ, min_lot = a * step) (hb : ∃ b : ℤ, max_lot = b * step)
    (x : ℚ) :
    quantize step min_lot max_lot (quantize step min_lot max_lot x) =
      quantize step min_lot max_lot x := by
  set v : ℚ := (rhe (x / step) : ℚ) * step with hv
  have hq : quantize step min_lot max_lot x = max min_lot (min max_lot v) := rfl
  rcases le_total v min_lot with hvm | hvm
  · have heq : quantize step min_lot max_lot x = min_lot := by
      rw [hq, min_eq_right (le_trans hvm hmm), max_eq_left hvm]
    rw [heq]
    exact quantize_fixed hstep.ne' ha le_rfl hmm
  · rcases le_total v max_lot with hvM | hvM
    · have heq : quantize step min_lot max_lot x = v := by
        rw [hq, min_eq_right hvM, max_eq_right hvm]
      rw [heq]
      exact quantize_fixed hstep.ne' ⟨rhe (x / step), hv⟩ hvm hvM
    · have heq : quantize step min_lot max_lot x = max_lot := by
        rw [hq, min_eq_left hvM, max_eq_right hmm]
      rw [heq]
      exact quantize_fixed hstep.ne' hb hmm le_rfl

/-! ## Broker data & `place_spread_orders` volume adjustment
(`core/mt5_trade_executor.py`) -/

/-- The slice of `mt5.symbol_info(symbol)` the executor reads. -/
structure SymbolInfo where
  volume_step : ℚ
  volume_min : ℚ
  volume_max : ℚ
  visible : Bool := true
deriving DecidableEq

/-- Result record `TradeResult` of `core/mt5_trade_executor.py`. -/
structure TradeResult where
  success : Bool
  order_ticket : Option ℕ
  volume : ℚ
  price : ℚ
  comment : String
  error_code : Option ℤ := none
  error_description : Option String := none
deriving DecidableEq

/-- An MT5 `order_send` request as assembled by `_place_order_no_adjustment`
(the `TRADE_ACTION_DEAL` / GTC / IOC constants, identical on every request,
are omitted). -/
structure OrderRequest where
  symbol : String
  volume : ℚ
  order_type : String
  price : ℚ
  sl : Option ℚ
  tp : Option ℚ
  deviation : ℕ
  magic : ℕ
  comment : String
deriving DecidableEq

/-- The slice of an `mt5.order_send` result the executor reads. -/
structure OrderSendResult where
  retcode : ℤ
  order : ℕ
  volume : ℚ
  price : ℚ
  comment : String
deriving DecidableEq

/-- `mt5.TRADE_RETCODE_DONE`. -/
def TRADE_RETCODE_DONE : ℤ := 10009

/-- The MT5 terminal as a deterministic oracle: `symbol_info` lookup,
`symbol_select` outcome, current tick prices, and the broker's response to an
`order_send` request (`none` models the Python `None` return). -/
structure Broker where
  symbol_info : String → Option SymbolInfo
  select_ok : String → Bool
  ask : String → ℚ
  bid : String → ℚ
  order_send : OrderRequest → Option OrderSendResult

/-- The volume-adjustment block of `place_spread_orders`
(`core/mt5_trade_executor.py` lines 283–337): scale both raw volumes by the
configured multiplier, compute the intended hedge ratio
`silver_volume / gold_volume` from the scaled (pre-quantization) volumes,
quantize the gold (primary) leg to its broker step/min/max, recompute the
silver (secondary) target as `gold_adjusted * hedge_ratio`, and quantize that.
A missing `symbol_info` falls back to `round(v, 2)`. -/
def spreadAdjustedVolumes (volume_multiplier : ℚ) (goldInfo silverInfo : Option SymbolInfo)
    (gold_volume silver_volume : ℚ) : ℚ × ℚ :=
  let gv := gold_volume * volume_multiplier
  let sv := silver_volume * volume_multiplier
  let hedge_r := if 0 < gv then sv / gv else 1
  let gold_adjusted :=
    match goldInfo with
    | some i => quantize i.volume_step i.volume_min i.volume_max gv
    | none => round2 gv
  let silver_from_hedge := gold_adjusted * hedge_r
  let silver_adjusted :=
    match silverInfo with
    | some i => quantize i.volume_step i.volume_min i.volume_max silver_from_hedge
    | none => round2 silver_from_hedge
  (gold_adjusted, silver_adjusted)

/-- The post-adjustment ratio check of `place_spread_orders` (lines 339–344):
`final_ratio = silver_adjusted / gold_adjusted` (0 when the gold leg is 0) and
`ratio_error = |final_ratio - hedge_ratio| / hedge_ratio * 100` (0 when the
hedge ratio is 0). -/
def spreadRatioError (volume_multiplier : ℚ) (goldInfo silverInfo : Option SymbolInfo)
    (gold_volume silver_volume : ℚ) : ℚ :=
  let p := spreadAdjustedVolumes volume_multiplier goldInfo silverInfo gold_volume silver_volume
  let hedge_r :=
    if 0 < gold_volume * volume_multiplier then
      silver_volume * volume_multiplier / (gold_volume * volume_multiplier)
    else 1
  let final_r := if 0 < p.1 then p.2 / p.1 else 0
  if 0 < hedge_r then |final_r - hedge_r| / hedge_r * 100 else 0

/-- `_place_order_no_adjustment` of `core/mt5_trade_executor.py` (lines
398–514); callers pass `order_type` already upper-case.  Returns the Python
function's `TradeResult` together with the list of `order_send` requests it
issued (the side-effect trace).  The `mt5.last_error()` detail interpolated
into the order-send-`None` comment is not modelled. -/
def place_order_no_adjustment (magic : ℕ) (broker : Broker) (symbol order_type : String)
    (volume : ℚ) (sl tp : Option ℚ) (deviation : ℕ) (comment : String) :
    TradeResult × List OrderRequest :=
  match broker.symbol_info symbol with
  | none =>
      ({ success := false, order_ticket := none, volume := 0, price := 0,
         comment := "Symbol " ++ symbol ++ " not found" }, [])
  | some info =>
      if info.visible = false ∧ broker.select_ok symbol = false then
        ({ success := false, order_ticket := none, volume := 0, price := 0,
           comment := "Failed to select " ++ symbol }, [])
      else
        let price := if order_type = "BUY" then broker.ask symbol else broker.bid symbol
        let request : OrderRequest :=
          { symbol := symbol, volume := volume, order_type := order_type, price := price,
            sl := sl, tp := tp, deviation := deviation, magic := magic, comment := comment }
        match broker.order_send request with
        | none =>
            ({ success := false, order_ticket := none, volume := 0, price := 0,
               comment := "MT5 order_send returned None" }, [request])
        | some result =>
            if result.retcode ≠ TRADE_RETCODE_DONE then
              ({ success := false, order_ticket := some result.order, volume := 0, price := 0,
                 comment := toString result.retcode ++ ": " ++ result.comment }, [request])
            else
              ({ success := true, order_ticket := some result.order, volume := result.volume,
                 price := result.price, comment := "Success" }, [request])

/-- Constructor configuration of `MT5TradeExecutor`. -/
structure ExecutorConfig where
  magic_number : ℕ
  volume_multiplier : ℚ
  primary_symbol : String
  secondary_symbol : String

/-- The leg-placement half of `place_spread_orders` (lines 349–396), after the
volumes were adjusted.  In the source, the `return` on primary-leg failure
(line 361–364) references the local variable `spread_id`, which is only
assigned on line 388 after both legs succeed; Python therefore raises
`UnboundLocalError` there, modelled as `Except.error`.  The second component
is the trace of broker requests issued. -/
def place_spread_legs (cfg : ExecutorConfig) (broker : Broker) (gold_type silver_type : String)
    (gold_adjusted silver_adjusted : ℚ) (entry_zscore : ℚ)
    (sl_gold tp_gold sl_silver tp_silver : Option ℚ) (short_id : String) :
    Except String ((TradeResult × TradeResult) × Option String × Option ℚ) × List OrderRequest :=
  let gold_comment := "ID:" ++ short_id
  let silver_comment := "ID:" ++ short_id
  let gold := place_order_no_adjustment cfg.magic_number broker cfg.primary_symbol gold_type
    gold_adjusted sl_gold tp_gold 20 gold_comment
  if gold.1.success = false then
    (Except.error "UnboundLocalError: cannot access local variable spread_id", gold.2)
  else
    let silver := place_order_no_adjustment cfg.magic_number broker cfg.secondary_symbol
      silver_type silver_adjusted sl_silver tp_silver 20 silver_comment
    if gold.1.success = false ∨ silver.1.success = false then
      (Except.ok ((gold.1, silver.1), none, none), gold.2 ++ silver.2)
    else
      let spread_id := toString (gold.1.order_ticket.getD 0) ++ "-" ++
        toString (silver.1.order_ticket.getD 0)
      (Except.ok ((gold.1, silver.1), some spread_id, some entry_zscore), gold.2 ++ silver.2)

/-- `place_spread_orders` of `core/mt5_trade_executor.py` (lines 224–396);
`short_id` stands for the wall-clock-derived `HHMMSS` token.  `side` is
compared after Python's `.upper()`, so inputs are the upper-case strings. -/
def place_spread_orders (cfg : ExecutorConfig) (broker : Broker)
    (gold_volume silver_volume : ℚ) (side : String) (entry_zscore : ℚ)
    (sl_gold tp_gold sl_silver tp_silver : Option ℚ) (short_id : String) :
    Except String ((TradeResult × TradeResult) × Option String × Option ℚ) × List OrderRequest :=
  let volumes := spreadAdjustedVolumes cfg.volume_multiplier
    (broker.symbol_info cfg.primary_symbol) (broker.symbol_info cfg.secondary_symbol)
    gold_volume silver_volume
  if side = "LONG" then
    place_spread_legs cfg broker "BUY" "SELL" volumes.1 volumes.2 entry_zscore
      sl_gold tp_gold sl_silver tp_silver short_id
  else if side = "SHORT" then
    place_spread_legs cfg broker "SELL" "BUY" volumes.1 volumes.2 entry_zscore
      sl_gold tp_gold sl_silver tp_silver short_id
  else
    (Except.error ("Invalid side: " ++ side), [])

/-! ## Hybrid rebalancer (`strategy/hybrid_rebalancer.py`)

Field names ending in `ratio` from the source are shortened to `hr`
(`entry_hedge_ratio` → `entry_hr`, `current_hedge_ratio` → `current_hr`,
function parameter `current_hedge_ratio` → `current_hr`). -/

/-- `RebalanceLevel` dataclass: one pyramiding level.  `timestamp` is the
wall-clock instant (`datetime.now()`) recorded on execution. -/
structure RebalanceLevel where
  zscore : ℚ
  executed : Bool
  timestamp : Option ℚ := none
  gold_lots : ℚ := 0
  silver_lots : ℚ := 0
deriving DecidableEq

/-- `HedgeAdjustment` dataclass (the `reason` log string is omitted). -/
structure HedgeAdjustment where
  spread_id : String
  symbol : String
  action : String
  quantity : ℚ
  old_hedge : ℚ
  new_hedge : ℚ
  drift_pct : ℚ
deriving DecidableEq

/-- Constructor configuration of `HybridRebalancer.__init__`. -/
structure RebalancerConfig where
  scale_interval : ℚ
  max_zscore : ℚ
  initial_fraction : ℚ
  hedge_drift_threshold : ℚ
  min_absolute_drift : ℚ
  min_adjustment_interval : ℚ
  enable_hedge_adjustment : Bool
deriving DecidableEq

/-- The default arguments of `HybridRebalancer.__init__` (lines 60–70). -/
def defaultRebalancerConfig : RebalancerConfig :=
  { scale_interval := 1 / 2, max_zscore := 3, initial_fraction := 33 / 100,
    hedge_drift_threshold := 1 / 20, min_absolute_drift := 1 / 100,
    min_adjustment_interval := 3600, enable_hedge_adjustment := true }

/-- The per-spread `position_data` dict built by `register_position`
(lines 172–188).  `entry_time` and `last_adjustment_time` are wall-clock
instants. -/
structure Position where
  spread_id : String
  side : String
  entry_zscore : ℚ
  entry_hr : ℚ
  current_hr : ℚ
  gold_lots : ℚ
  silver_lots : ℚ
  total_position_size : ℚ
  size_per_level : ℚ
  levels : List RebalanceLevel
  total_executed : ℕ
  entry_time : ℚ
  last_adjustment_time : Option ℚ
  primary_symbol : String
  secondary_symbol : String
deriving DecidableEq

/-- Mutable state of a `HybridRebalancer` instance: the dicts
`active_positions` and `last_adjustment` and the list `adjustment_history`. -/
structure RebalancerState where
  active_positions : String → Option Position
  last_adjustment : String → Option ℚ
  adjustment_history : List HedgeAdjustment

/-- The empty tracking state right after `__init__`. -/
def initialRebalancerState : RebalancerState :=
  { active_positions := fun _ => none, last_adjustment := fun _ => none,
    adjustment_history := [] }

/-- The LONG `while` loop of `calculate_pyramiding_levels` (lines 112–118):
starting from the entry z-score, emit a level and step down by
`scale_interval` while `abs(current_z) < max_zscore`; the level is marked
executed iff `current_z == initial_zscore`.  Fuel makes the recursion
structural; with positive `scale_interval` (any real run) the fuel chosen in
`calculate_pyramiding_levels` is never exhausted. -/
def pyramidLoopLong (scale_interval max_z init : ℚ) : ℕ → ℚ → List RebalanceLevel
  | 0, _ => []
  | fuel + 1, z =>
      if |z| < max_z then
        { zscore := z, executed := decide (z = init) } ::
          pyramidLoopLong scale_interval max_z init fuel (z - scale_interval)
      else []

/-- The SHORT `while` loop of `calculate_pyramiding_levels` (lines 125–131):
identical but stepping up by `scale_interval`. -/
def pyramidLoopShort (scale_interval max_z init : ℚ) : ℕ → ℚ → List RebalanceLevel
  | 0, _ => []
  | fuel + 1, z =>
      if |z| < max_z then
        { zscore := z, executed := decide (z = init) } ::
          pyramidLoopShort scale_interval max_z init fuel (z + scale_interval)
      else []

/-- Fuel bound for the pyramiding loops: the iterates stay inside
`(-max_z, max_z)` and move by `scale_interval` each step, so
`⌈(max_z + |init|) / scale_interval⌉ + 2` steps always suffice. -/
def pyramidFuel (scale_interval max_z init : ℚ) : ℕ :=
  (⌈(max_z + |init|) / scale_interval⌉).toNat + 2

/-- `calculate_pyramiding_levels` (lines 105–138): the loop levels followed by
the forced stop level at `∓max_zscore` (unexecuted).  Any side other than
`"LONG"` takes the SHORT branch, as in the source's `else`. -/
def calculate_pyramiding_levels (cfg : RebalancerConfig) (initial_zscore : ℚ)
    (side : String) : List RebalanceLevel :=
  if side = "LONG" then
    pyramidLoopLong cfg.scale_interval cfg.max_zscore initial_zscore
        (pyramidFuel cfg.scale_interval cfg.max_zscore initial_zscore) initial_zscore ++
      [{ zscore := -cfg.max_zscore, executed := false }]
  else
    pyramidLoopShort cfg.scale_interval cfg.max_zscore initial_zscore
        (pyramidFuel cfg.scale_interval cfg.max_zscore initial_zscore) initial_zscore ++
      [{ zscore := cfg.max_zscore, executed := false }]

/-- `register_position` (lines 140–199): compute the ladder, mark the first
level executed with the entry fill, store the `position_data` dict under
`spread_id`, and set `last_adjustment[spread_id] = time.time()` (= `now`). -/
def register_position (cfg : RebalancerConfig) (st : RebalancerState) (spread_id : String)
    (side : String) (entry_zscore entry_hr gold_lots silver_lots total_position_size : ℚ)
    (primary_symbol secondary_symbol : String) (now : ℚ) : RebalancerState :=
  let levels0 := calculate_pyramiding_levels cfg entry_zscore side
  let levels :=
    match levels0 with
    | [] => []
    | l :: ls =>
        { l with executed := true, timestamp := some now,
                 gold_lots := gold_lots, silver_lots := silver_lots } :: ls
  let p : Position :=
    { spread_id := spread_id, side := side, entry_zscore := entry_zscore,
      entry_hr := entry_hr, current_hr := entry_hr,
      gold_lots := gold_lots, silver_lots := silver_lots,
      total_position_size := total_position_size,
      size_per_level := total_position_size / (levels.length : ℚ),
      levels := levels, total_executed := 1, entry_time := now,
      last_adjustment_time := none,
      primary_symbol := primary_symbol, secondary_symbol := secondary_symbol }
  { st with
    active_positions := fun s => if s = spread_id then some p else st.active_positions s,
    last_adjustment := fun s => if s = spread_id then some now else st.last_adjustment s }

/-- `check_hedge_drift` (lines 244–363).  `now` is `time.time()`; a spread id
missing from `last_adjustment` defaults to 0 as in `self.last_adjustment.get(spread_id, 0)`. -/
def check_hedge_drift (cfg : RebalancerConfig) (st : RebalancerState) (spread_id : String)
    (current_hr : ℚ) (now : ℚ) : Option HedgeAdjustment :=
  if cfg.enable_hedge_adjustment = false then none
  else
    match st.active_positions spread_id with
    | none => none
    | some position =>
        let last_adj := (st.last_adjustment spread_id).getD 0
        if now - last_adj < cfg.min_adjustment_interval then none
        else
          let primary_lots := position.gold_lots
          let secondary_lots := position.silver_lots
          let target_secondary_lots := primary_lots * current_hr
          if target_secondary_lots = 0 then none
          else
            let drift := target_secondary_lots - secondary_lots
            let drift_pct := |drift| / target_secondary_lots
            let abs_drift := |drift|
            if ¬(cfg.hedge_drift_threshold ≤ drift_pct) ∧
               ¬(cfg.min_absolute_drift ≤ abs_drift) then none
            else
              let old_hedge := position.current_hr
              if 0 < drift then
                some { spread_id := spread_id, symbol := position.secondary_symbol,
                       action := "BUY", quantity := abs_drift, old_hedge := old_hedge,
                       new_hedge := current_hr, drift_pct := drift_pct }
              else
                some { spread_id := spread_id, symbol := position.primary_symbol,
                       action := "BUY", quantity := abs_drift / current_hr,
                       old_hedge := old_hedge, new_hedge := current_hr,
                       drift_pct := drift_pct }

/-- `mark_hedge_adjusted` (lines 419–445): unconditionally update
`silver_lots` (`+=` on `'BUY'`, `-=` otherwise, whatever the adjustment's
`symbol`), set `current_hedge_ratio` to the adjustment's `new_hedge`, stamp
the cooldown clock and append to the history. -/
def mark_hedge_adjusted (st : RebalancerState) (spread_id : String)
    (adjustment : HedgeAdjustment) (executed_quantity : ℚ) (now : ℚ) : RebalancerState :=
  match st.active_positions spread_id with
  | none => st
  | some position =>
      let position :=
        { position with
          silver_lots :=
            if adjustment.action = "BUY" then position.silver_lots + executed_quantity
            else position.silver_lots - executed_quantity,
          current_hr := adjustment.new_hedge,
          last_adjustment_time := some now }
      { st with
        active_positions := fun s => if s = spread_id then some position
          else st.active_positions s,
        last_adjustment := fun s => if s = spread_id then some now
          else st.last_adjustment s,
        adjustment_history := st.adjustment_history ++ [adjustment] }

/-! ## Setup tracker & recovery (`core/setup_tracker.py`, `core/setup_recovery.py`)

File persistence (`_save_setup`, `_save_setups`) is not modelled; the
in-memory `active_setups` dict is a map `String → Option Setup`.  The field
`entry_hedge_ratio` is shortened to `entry_hr`. -/

/-- `SetupPosition` dataclass of `core/setup_tracker.py`. -/
structure SetupPosition where
  spread_id : String
  short_id : String
  mt5_primary_ticket : ℕ
  mt5_secondary_ticket : ℕ
  entry_zscore : ℚ
  primary_lots : ℚ
  secondary_lots : ℚ
  level : String
  timestamp : String
deriving DecidableEq

/-- `Setup` dataclass of `core/setup_tracker.py`. -/
structure Setup where
  setup_id : String
  entry_time : String
  entry_zscore : ℚ
  exit_zscore : Option ℚ
  side : String
  pair : String
  entry_hr : ℚ
  positions : List SetupPosition
  status : String
  last_updated : String
deriving DecidableEq

/-- `SetupTracker.get_all_setup_tickets` (lines 292–304): the primary then
secondary ticket of each position, in insertion order. -/
def get_all_setup_tickets (active_setups : String → Option Setup) (setup_id : String) :
    List ℕ :=
  match active_setups setup_id with
  | none => []
  | some setup =>
      setup.positions.foldr
        (fun p acc => p.mt5_primary_ticket :: p.mt5_secondary_ticket :: acc) []

/-- `SetupTracker.close_setup` (lines 235–252): set status `'CLOSED'` and the
exit z-score, stamp `last_updated` (= `now`), remove the setup from the active
dict.  Returns the new active dict and the closed record as written to the
setup's detail file (`none` when the id is unknown). -/
def close_setup (active_setups : String → Option Setup) (setup_id : String)
    (exit_zscore : ℚ) (now : String) : (String → Option Setup) × Option Setup :=
  match active_setups setup_id with
  | none => (active_setups, none)
  | some setup =>
      let setup :=
        { setup with
          status := "CLOSED"
          exit_zscore := some exit_zscore
          last_updated := now }
      (fun s => if s = setup_id then none else active_setups s, some setup)

/-- `SetupRecovery.close_all_positions_in_setup` (`core/setup_recovery.py`
lines 64–136).  The broker is abstracted per ticket: `present t` is whether
`mt5.positions_get(ticket=t)` is non-empty, `close_retcode t` the retcode of
the close `order_send` (`none` models a `None` return).  A ticket that is
absent is skipped (`continue`) without incrementing `success_count`; the
setup is closed (with `exit_zscore = 0.0`) and `True` returned only when
`success_count == len(tickets)`.  Returns
`(return value, new active dict, closed record written on success)`. -/
def close_all_positions_in_setup (active_setups : String → Option Setup)
    (present : ℕ → Bool) (close_retcode : ℕ → Option ℤ) (setup_id : String)
    (now : String) : Bool × (String → Option Setup) × Option Setup :=
  let tickets := get_all_setup_tickets active_setups setup_id
  if tickets = [] then (false, active_setups, none)
  else
    let success_count :=
      (tickets.filter
        (fun t => present t && decide (close_retcode t = some TRADE_RETCODE_DONE))).length
    if success_count = tickets.length then
      let r := close_setup active_setups setup_id 0 now
      (true, r.1, r.2)
    else (false, active_setups, none)

/-! ## Shared concrete examples used by witnesses and counterexamples -/

/-- A typical broker volume spec: step 0.01, min 0.01, max 100. -/
def exampleSymbolInfo : SymbolInfo :=
  { volume_step := 1/100, volume_min := 1/100, volume_max := 100 }

/-- A registered position with the given gold/silver lots (hedge ratio 0.7179). -/
def examplePosition (gold silver : ℚ) : Position :=
  { spread_id := "s", side := "LONG", entry_zscore := -2, entry_hr := 7179/10000,
    current_hr := 7179/10000, gold_lots := gold, silver_lots := silver,
    total_position_size := gold + silver, size_per_level := (gold + silver) / 4,
    levels := [], total_executed := 1, entry_time := 0, last_adjustment_time := none,
    primary_symbol := "XAUUSD", secondary_symbol := "XAGUSD" }

/-- Rebalancer state holding `examplePosition gold silver` under id `"s"`,
with the cooldown clock last stamped at time 0. -/
def exampleState (gold silver : ℚ) : RebalancerState :=
  { active_positions := fun s => if s = "s" then some (examplePosition gold silver) else none,
    last_adjustment := fun s => if s = "s" then some 0 else none,
    adjustment_history := [] }

/-- A primary-leg BUY hedge adjustment, as produced by the `drift < 0` branch. -/
def exampleAdjustment : HedgeAdjustment :=
  { spread_id := "s", symbol := "XAUUSD", action := "BUY", quantity := 1/2,
    old_hedge := 7179/10000, new_hedge := 7179/10000, drift_pct := 1/4 }

/-- One stored leg pair with broker tickets 1 (primary) and 2 (secondary). -/
def exampleLeg : SetupPosition :=
  { spread_id := "sp"
    short_id := "123456"
    mt5_primary_ticket := 1
    mt5_secondary_ticket := 2
    entry_zscore := -2
    primary_lots := 1/100
    secondary_lots := 1/10
    level := "initial"
    timestamp := "ts" }

/-- An active setup `"t"` holding `exampleLeg`. -/
def exampleSetup : Setup :=
  { setup_id := "t"
    entry_time := "e"
    entry_zscore := -2
    exit_zscore := none
    side := "LONG"
    pair := "XAU/XAG"
    entry_hr := 7179/10000
    positions := [exampleLeg]
    status := "ACTIVE"
    last_updated := "u" }

/-- Tracker dict holding only `exampleSetup`. -/
def exampleActiveSetups : String → Option Setup :=
  fun s => if s = "t" then some exampleSetup else none

/-- Broker view for the C6 counterexample: only ticket 2 is still present. -/
def examplePresent : ℕ → Bool := fun t => decide (t = 2)

/-- Close outcome for the C6 counterexample: ticket 2 closes fine. -/
def exampleCloseRetcode : ℕ → Option ℤ :=
  fun t => if t = 2 then some TRADE_RETCODE_DONE else none

/-- Broker view where every ticket is present. -/
def allPresent : ℕ → Bool := fun _ => true

/-- Close outcome where every close succeeds. -/
def allCloseDone : ℕ → Option ℤ := fun _ => some TRADE_RETCODE_DONE

/-- Executor configuration used in the C5 witness. -/
def exampleExecCfg : ExecutorConfig :=
  { magic_number := 234000, volume_multiplier := 1, primary_symbol := "XAUUSD",
    secondary_symbol := "XAGUSD" }

/-- A broker that knows no symbols: every order attempt fails. -/
def exampleDeadBroker : Broker :=
  { symbol_info := fun _ => none, select_ok := fun _ => false, ask := fun _ => 0,
    bid := fun _ => 0, order_send := fun _ => none }

/-! ## Claim theorems -/

/-- C1: for positive (multiplier-scaled) primary volume, `place_spread_orders`
quantizes the primary leg from the scaled raw volume against its broker
step/min/max, and the final secondary volume is the quantization of
`primary_quantized * hedge_ratio`, where the hedge ratio is
`secondary/primary` computed from the pre-quantization multiplier-scaled
volumes — the secondary is derived from the already-rounded primary, not
independently rounded. -/
theorem c1_secondary_quantization_derived_from_primary
    (vm gv sv : ℚ) (gi si : SymbolInfo) (h : 0 < gv * vm) :
    (spreadAdjustedVolumes vm (some gi) (some si) gv sv).1 =
      quantize gi.volume_step gi.volume_min gi.volume_max (gv * vm) ∧
    (spreadAdjustedVolumes vm (some gi) (some si) gv sv).2 =
      quantize si.volume_step si.volume_min si.volume_max
        ((spreadAdjustedVolumes vm (some gi) (some si) gv sv).1 * (sv * vm / (gv * vm))) := by
  simp [spreadAdjustedVolumes, if_pos h]

/-- C1 witness: primary_raw = 0.01, secondary_raw = 0.1, both steps 0.01
(min 0.01, max 100), multiplier 1: final volumes (0.01, 0.10), ratio error
exactly 0, and the structural decomposition holds at this input. -/
theorem c1_witness :
    spreadAdjustedVolumes 1 (some exampleSymbolInfo) (some exampleSymbolInfo)
      (1/100) (1/10) = (1/100, 1/10) ∧
    spreadRatioError 1 (some exampleSymbolInfo) (some exampleSymbolInfo)
      (1/100) (1/10) = 0 ∧
    (spreadAdjustedVolumes 1 (some exampleSymbolInfo) (some exampleSymbolInfo)
        (1/100) (1/10)).2 =
      quantize exampleSymbolInfo.volume_step exampleSymbolInfo.volume_min
        exampleSymbolInfo.volume_max
        ((spreadAdjustedVolumes 1 (some exampleSymbolInfo) (some exampleSymbolInfo)
          (1/100) (1/10)).1 * (1/10 * 1 / (1/100 * 1))) :=
  ⟨by norm_num [spreadAdjustedVolumes, quantize, rhe, exampleSymbolInfo],
   by norm_num [spreadRatioError, spreadAdjustedVolumes, quantize, rhe, exampleSymbolInfo],
   (c1_secondary_quantization_derived_from_primary 1 (1/100) (1/10) exampleSymbolInfo
     exampleSymbolInfo (by norm_num)).2⟩

/-- C2: with hedge adjustment enabled, outside the cooldown, and with nonzero
target secondary, `check_hedge_drift` returns an adjustment iff the
percentage drift reaches `hedge_drift_threshold` or the absolute drift
reaches `min_absolute_drift` — either threshold alone is sufficient. -/
theorem c2_dual_threshold_trigger_iff (cfg : RebalancerConfig) (st : RebalancerState)
    (spread_id : String) (current_hr now : ℚ) (p : Position)
    (hen : cfg.enable_hedge_adjustment = true)
    (hp : st.active_positions spread_id = some p)
    (hcool : cfg.min_adjustment_interval ≤ now - (st.last_adjustment spread_id).getD 0)
    (htgt : p.gold_lots * current_hr ≠ 0) :
    (check_hedge_drift cfg st spread_id current_hr now).isSome = true ↔
      (cfg.hedge_drift_threshold ≤
          |p.gold_lots * current_hr - p.silver_lots| / (p.gold_lots * current_hr) ∨
       cfg.min_absolute_drift ≤ |p.gold_lots * current_hr - p.silver_lots|) := by
  simp only [check_hedge_drift, hp, hen, Bool.true_eq_false, if_false,
    if_neg (not_lt.mpr hcool), if_neg htgt]
  split_ifs with h1 h2
  · simp only [Option.isSome_none, Bool.false_eq_true, false_iff]
    push_neg
    exact ⟨not_le.mp h1.1, not_le.mp h1.2⟩
  · simp only [Option.isSome_some, true_iff]
    tauto
  · simp only [Option.isSome_some, true_iff]
    tauto

/-- C2 witness: primary 0.05, actual secondary 0.02, hedge 0.7179 under the
default thresholds triggers (drift 0.015895 ≥ 0.01 absolute), and the
returned adjustment is BUY 0.015895 ≈ 0.0159 lots of the secondary. -/
theorem c2_witness :
    (check_hedge_drift defaultRebalancerConfig (exampleState (1/20) (1/50)) "s"
        (7179/10000) 3600).isSome = true ∧
    check_hedge_drift defaultRebalancerConfig (exampleState (1/20) (1/50)) "s"
        (7179/10000) 3600 =
      some { spread_id := "s", symbol := "XAGUSD", action := "BUY", quantity := 3179/200000,
             old_hedge := 7179/10000, new_hedge := 7179/10000, drift_pct := 3179/7179 } :=
  ⟨(c2_dual_threshold_trigger_iff defaultRebalancerConfig (exampleState (1/20) (1/50)) "s"
      (7179/10000) 3600 (examplePosition (1/20) (1/50)) rfl
      (by simp [exampleState])
      (by norm_num [exampleState, defaultRebalancerConfig])
      (by norm_num [examplePosition])).mpr
    (Or.inr (by norm_num [examplePosition, defaultRebalancerConfig, abs_of_nonneg])),
   by norm_num [check_hedge_drift, exampleState, examplePosition, defaultRebalancerConfig,
     abs_of_nonneg]⟩

/-- C3: whenever `check_hedge_drift` returns an adjustment, its action is BUY
(the excess secondary is never sold): for positive drift it buys `|drift|`
lots of the secondary instrument, for negative drift it buys
`|drift| / current_hedge_ratio` lots of the primary instrument. -/
theorem c3_adjustment_always_buy (cfg : RebalancerConfig) (st : RebalancerState)
    (spread_id : String) (current_hr now : ℚ) (adj : HedgeAdjustment)
    (h : check_hedge_drift cfg st spread_id current_hr now = some adj) :
    adj.action = "BUY" ∧
    ∀ p, st.active_positions spread_id = some p →
      ((0 < p.gold_lots * current_hr - p.silver_lots →
          adj.symbol = p.secondary_symbol ∧
          adj.quantity = |p.gold_lots * current_hr - p.silver_lots|) ∧
       (p.gold_lots * current_hr - p.silver_lots < 0 →
          adj.symbol = p.primary_symbol ∧
          adj.quantity = |p.gold_lots * current_hr - p.silver_lots| / current_hr)) := by
  unfold check_hedge_drift at h
  split at h
  · exact absurd h (by simp)
  split at h
  · exact absurd h (by simp)
  next position heq =>
    dsimp only at h
    split at h
    · exact absurd h (by simp)
    split at h
    · exact absurd h (by simp)
    split at h
    · exact absurd h (by simp)
    by_cases hdrift : 0 < position.gold_lots * current_hr - position.silver_lots
    · rw [if_pos hdrift] at h
      obtain rfl := (Option.some.inj h).symm
      refine ⟨rfl, ?_⟩
      intro p hp
      rw [heq] at hp
      obtain rfl := (Option.some.inj hp).symm
      exact ⟨fun _ => ⟨rfl, rfl⟩, fun hneg => absurd hdrift (not_lt.mpr hneg.le)⟩
    · rw [if_neg hdrift] at h
      obtain rfl := (Option.some.inj h).symm
      refine ⟨rfl, ?_⟩
      intro p hp
      rw [heq] at hp
      obtain rfl := (Option.some.inj hp).symm
      exact ⟨fun hpos => absurd hpos hdrift, fun _ => ⟨rfl, rfl⟩⟩

/-- C3 witness: at the C2 input the produced adjustment is a BUY, and the
positive-drift branch names the secondary instrument and `|drift|` lots. -/
theorem c3_witness :
    ({ spread_id := "s", symbol := "XAGUSD", action := "BUY", quantity := 3179/200000,
       old_hedge := 7179/10000, new_hedge := 7179/10000,
       drift_pct := 3179/7179 } : HedgeAdjustment).action = "BUY" ∧
    ∀ p, (exampleState (1/20) (1/50)).active_positions "s" = some p →
      ((0 < p.gold_lots * (7179/10000) - p.silver_lots →
          ({ spread_id := "s", symbol := "XAGUSD", action := "BUY", quantity := 3179/200000,
             old_hedge := 7179/10000, new_hedge := 7179/10000,
             drift_pct := 3179/7179 } : HedgeAdjustment).symbol = p.secondary_symbol ∧
          ({ spread_id := "s", symbol := "XAGUSD", action := "BUY", quantity := 3179/200000,
             old_hedge := 7179/10000, new_hedge := 7179/10000,
             drift_pct := 3179/7179 } : HedgeAdjustment).quantity =
            |p.gold_lots * (7179/10000) - p.silver_lots|) ∧
       (p.gold_lots * (7179/10000) - p.silver_lots < 0 →
          ({ spread_id := "s", symbol := "XAGUSD", action := "BUY", quantity := 3179/200000,
             old_hedge := 7179/10000, new_hedge := 7179/10000,
             drift_pct := 3179/7179 } : HedgeAdjustment).symbol = p.primary_symbol ∧
          ({ spread_id := "s", symbol := "XAGUSD", action := "BUY", quantity := 3179/200000,
             old_hedge := 7179/10000, new_hedge := 7179/10000,
             drift_pct := 3179/7179 } : HedgeAdjustment).quantity =
            |p.gold_lots * (7179/10000) - p.silver_lots| / (7179/10000))) :=
  c3_adjustment_always_buy defaultRebalancerConfig (exampleState (1/20) (1/50)) "s"
    (7179/10000) 3600 _
    (by norm_num [check_hedge_drift, exampleState, examplePosition, defaultRebalancerConfig,
      abs_of_nonneg])

/-- C4 counterexample: applying a primary-leg (`symbol = "XAUUSD"`) BUY
adjustment of 0.5 lots to a position with gold 1, silver 2 leaves the gold
(primary) lots at 1 and moves the silver (secondary) lots to 2.5 — the claim
predicted gold 1.5 and silver 2. -/
theorem c4_counterexample :
    Option.map Position.gold_lots
      ((mark_hedge_adjusted (exampleState 1 2) "s" exampleAdjustment (1/2) 5).active_positions
        "s") = some 1 ∧
    Option.map Position.silver_lots
      ((mark_hedge_adjusted (exampleState 1 2) "s" exampleAdjustment (1/2) 5).active_positions
        "s") = some (5/2) ∧
    ¬(Option.map Position.gold_lots
        ((mark_hedge_adjusted (exampleState 1 2) "s" exampleAdjustment (1/2)
          5).active_positions "s") = some (3/2) ∧
      Option.map Position.silver_lots
        ((mark_hedge_adjusted (exampleState 1 2) "s" exampleAdjustment (1/2)
          5).active_positions "s") = some 2) := by
  norm_num [mark_hedge_adjusted, exampleState, examplePosition, exampleAdjustment]

/-- C4 (amended): `mark_hedge_adjusted` always updates the secondary (silver)
lots by the executed quantity — `+` for BUY, `-` otherwise — regardless of the
adjustment's symbol, leaves the primary (gold) lots unchanged, sets
`current_hedge_ratio` to the adjustment's new hedge, resets that setup's
cooldown clock, and appends the adjustment to the history. -/
theorem c4_mark_hedge_adjusted_updates_silver (st : RebalancerState) (spread_id : String)
    (adj : HedgeAdjustment) (q now : ℚ) (p : Position)
    (hp : st.active_positions spread_id = some p) :
    (mark_hedge_adjusted st spread_id adj q now).active_positions spread_id =
      some { p with
             silver_lots :=
               if adj.action = "BUY" then p.silver_lots + q else p.silver_lots - q
             current_hr := adj.new_hedge
             last_adjustment_time := some now } ∧
    (mark_hedge_adjusted st spread_id adj q now).last_adjustment spread_id = some now ∧
    (mark_hedge_adjusted st spread_id adj q now).adjustment_history =
      st.adjustment_history ++ [adj] ∧
    Option.map Position.gold_lots
      ((mark_hedge_adjusted st spread_id adj q now).active_positions spread_id) =
      some p.gold_lots := by
  unfold mark_hedge_adjusted
  rw [hp]
  simp

/-- C4 witness: the amended behaviour at the counterexample's concrete input. -/
theorem c4_witness :
    (mark_hedge_adjusted (exampleState 1 2) "s" exampleAdjustment (1/2) 5).active_positions
        "s" =
      some { examplePosition 1 2 with
             silver_lots :=
               if exampleAdjustment.action = "BUY" then (examplePosition 1 2).silver_lots + 1/2
               else (examplePosition 1 2).silver_lots - 1/2
             current_hr := exampleAdjustment.new_hedge
             last_adjustment_time := some 5 } ∧
    (mark_hedge_adjusted (exampleState 1 2) "s" exampleAdjustment (1/2) 5).last_adjustment
        "s" = some 5 ∧
    (mark_hedge_adjusted (exampleState 1 2) "s" exampleAdjustment (1/2) 5).adjustment_history =
      (exampleState 1 2).adjustment_history ++ [exampleAdjustment] ∧
    Option.map Position.gold_lots
      ((mark_hedge_adjusted (exampleState 1 2) "s" exampleAdjustment (1/2) 5).active_positions
        "s") = some (examplePosition 1 2).gold_lots :=
  c4_mark_hedge_adjusted_updates_silver (exampleState 1 2) "s" exampleAdjustment (1/2) 5
    (examplePosition 1 2) (by simp [exampleState])

/-- Requests issued by `_place_order_no_adjustment` all carry the symbol it
was asked to trade. -/
theorem place_order_no_adjustment_symbols (magic : ℕ) (broker : Broker)
    (symbol order_type : String) (volume : ℚ) (sl tp : Option ℚ) (deviation : ℕ)
    (comment : String) :
    ∀ r ∈ (place_order_no_adjustment magic broker symbol order_type volume sl tp
        deviation comment).2, r.symbol = symbol := by
  unfold place_order_no_adjustment
  dsimp only
  repeat' split
  all_goals intro r hr
  all_goals simp only [List.mem_singleton, List.not_mem_nil] at hr
  all_goals first
    | exact hr.elim
    | (subst hr; rfl)

/-- C5: if the primary-leg order of `place_spread_orders` fails, the secondary
order is never attempted (every issued broker request names the primary
symbol), but the function does not return the failure as a structured result:
the failure-path `return` reads the not-yet-assigned local `spread_id`
(line 364 vs. the assignment on line 388), so Python raises
`UnboundLocalError`, modelled as `Except.error`. -/
theorem c5_primary_failure_raises_unbound_local (cfg : ExecutorConfig) (broker : Broker)
    (gv sv ez : ℚ) (slg tpg sls tps : Option ℚ) (sid side : String)
    (hside : side = "LONG" ∨ side = "SHORT")
    (hfail : (place_order_no_adjustment cfg.magic_number broker cfg.primary_symbol
      (if side = "LONG" then "BUY" else "SELL")
      (spreadAdjustedVolumes cfg.volume_multiplier (broker.symbol_info cfg.primary_symbol)
        (broker.symbol_info cfg.secondary_symbol) gv sv).1
      slg tpg 20 ("ID:" ++ sid)).1.success = false) :
    place_spread_orders cfg broker gv sv side ez slg tpg sls tps sid =
      (Except.error "UnboundLocalError: cannot access local variable spread_id",
       (place_order_no_adjustment cfg.magic_number broker cfg.primary_symbol
         (if side = "LONG" then "BUY" else "SELL")
         (spreadAdjustedVolumes cfg.volume_multiplier (broker.symbol_info cfg.primary_symbol)
           (broker.symbol_info cfg.secondary_symbol) gv sv).1
         slg tpg 20 ("ID:" ++ sid)).2) ∧
    ∀ r ∈ (place_spread_orders cfg broker gv sv side ez slg tpg sls tps sid).2,
      r.symbol = cfg.primary_symbol := by
  rcases hside with rfl | rfl
  all_goals simp only [String.reduceEq, reduceIte] at hfail
  all_goals unfold place_spread_orders place_spread_legs
  all_goals dsimp only
  all_goals simp only [String.reduceEq, reduceIte]
  all_goals rw [if_pos hfail]
  all_goals exact ⟨rfl, place_order_no_adjustment_symbols _ _ _ _ _ _ _ _ _⟩

/-- C5 witness: against a broker that knows no symbols, a LONG spread raises
the modelled `UnboundLocalError` after the primary leg fails, and no request
for the secondary symbol was issued. -/
theorem c5_witness :
    place_spread_orders exampleExecCfg exampleDeadBroker (1/100) (1/10) "LONG" 0 none none
        none none "120000" =
      (Except.error "UnboundLocalError: cannot access local variable spread_id",
       (place_order_no_adjustment exampleExecCfg.magic_number exampleDeadBroker
         exampleExecCfg.primary_symbol (if "LONG" = "LONG" then "BUY" else "SELL")
         (spreadAdjustedVolumes exampleExecCfg.volume_multiplier
           (exampleDeadBroker.symbol_info exampleExecCfg.primary_symbol)
           (exampleDeadBroker.symbol_info exampleExecCfg.secondary_symbol) (1/100) (1/10)).1
         none none 20 ("ID:" ++ "120000")).2) ∧
    ∀ r ∈ (place_spread_orders exampleExecCfg exampleDeadBroker (1/100) (1/10) "LONG" 0 none
        none none none "120000").2, r.symbol = exampleExecCfg.primary_symbol :=
  c5_primary_failure_raises_unbound_local exampleExecCfg exampleDeadBroker (1/100) (1/10) 0
    none none none none "120000" "LONG" (Or.inl rfl) rfl

/-- C6 counterexample: in a setup with tickets 1 and 2 where ticket 1 is
already absent from the broker and ticket 2 closes successfully, every
still-present ticket closes successfully, yet
`close_all_positions_in_setup` returns `false` (the skipped ticket is not
counted as a success). -/
theorem c6_counterexample :
    (∀ t ∈ get_all_setup_tickets exampleActiveSetups "t",
      examplePresent t = true → exampleCloseRetcode t = some TRADE_RETCODE_DONE) ∧
    (close_all_positions_in_setup exampleActiveSetups examplePresent exampleCloseRetcode
      "t" "now").1 = false := by
  constructor
  · intro t ht
    simp [get_all_setup_tickets, exampleActiveSetups, exampleSetup, exampleLeg] at ht
    rcases ht with rfl | rfl <;> simp [examplePresent, exampleCloseRetcode]
  · simp [close_all_positions_in_setup, get_all_setup_tickets, exampleActiveSetups,
      exampleSetup, exampleLeg, examplePresent, exampleCloseRetcode]

/-- C6 (amended): `close_all_positions_in_setup` returns true exactly when the
setup's ticket list is non-empty and every ticket is still present at the
broker and closes successfully; a ticket already absent is skipped (no close
attempted) but still counts against the success tally, so it forces a false
return.  On a true return the setup record is marked CLOSED with exit
z-score 0.0. -/
theorem c6_close_all_success_iff (active_setups : String → Option Setup)
    (present : ℕ → Bool) (close_retcode : ℕ → Option ℤ) (setup_id : String)
    (now : String) :
    ((close_all_positions_in_setup active_setups present close_retcode setup_id now).1 =
        true ↔
      (get_all_setup_tickets active_setups setup_id ≠ [] ∧
       ∀ t ∈ get_all_setup_tickets active_setups setup_id,
         present t = true ∧ close_retcode t = some TRADE_RETCODE_DONE)) ∧
    ((close_all_positions_in_setup active_setups present close_retcode setup_id now).1 =
        true →
      ∃ s, (close_all_positions_in_setup active_setups present close_retcode setup_id
              now).2.2 = some s ∧ s.status = "CLOSED" ∧ s.exit_zscore = some 0) := by
  unfold close_all_positions_in_setup
  by_cases h0 : get_all_setup_tickets active_setups setup_id = []
  · rw [if_pos h0]
    simp [h0]
  · rw [if_neg h0]
    by_cases hcnt : ((get_all_setup_tickets active_setups setup_id).filter
        (fun t => present t && decide (close_retcode t = some TRADE_RETCODE_DONE))).length =
        (get_all_setup_tickets active_setups setup_id).length
    · rw [if_pos hcnt]
      have hfe : (get_all_setup_tickets active_setups setup_id).filter
          (fun t => present t && decide (close_retcode t = some TRADE_RETCODE_DONE)) =
          get_all_setup_tickets active_setups setup_id :=
        List.Sublist.eq_of_length (List.filter_sublist _) hcnt
      constructor
      · simp only [true_iff]
        refine ⟨h0, fun t ht => ?_⟩
        have hmem : t ∈ (get_all_setup_tickets active_setups setup_id).filter
            (fun t => present t && decide (close_retcode t = some TRADE_RETCODE_DONE)) := by
          rw [hfe]; exact ht
        have := (List.mem_filter.mp hmem).2
        simpa using this
      · intro _
        cases hact : active_setups setup_id with
        | none => exact absurd (by unfold get_all_setup_tickets; rw [hact]) h0
        | some s =>
            refine ⟨{ s with status := "CLOSED", exit_zscore := some 0, last_updated := now },
              ?_, rfl, rfl⟩
            unfold close_setup
            rw [hact]
    · rw [if_neg hcnt]
      constructor
      · simp only [Bool.false_eq_true, false_iff, not_and]
        intro _ hall
        exact absurd (congrArg List.length
          (List.filter_eq_self.mpr (fun a ha => by simp [hall a ha]))) hcnt
      · intro hc
        exact absurd hc (by simp)

/-- C6 witness: with every ticket present and every close succeeding, the
amended characterisation holds at the concrete one-leg setup. -/
theorem c6_witness :
    ((close_all_positions_in_setup exampleActiveSetups allPresent allCloseDone "t"
        "now").1 = true ↔
      (get_all_setup_tickets exampleActiveSetups "t" ≠ [] ∧
       ∀ t ∈ get_all_setup_tickets exampleActiveSetups "t",
         allPresent t = true ∧ allCloseDone t = some TRADE_RETCODE_DONE)) ∧
    ((close_all_positions_in_setup exampleActiveSetups allPresent allCloseDone "t"
        "now").1 = true →
      ∃ s, (close_all_positions_in_setup exampleActiveSetups allPresent allCloseDone "t"
              "now").2.2 = some s ∧ s.status = "CLOSED" ∧ s.exit_zscore = some 0) :=
  c6_close_all_success_iff exampleActiveSetups allPresent allCloseDone "t" "now"

/-- C7: for a LONG plan with entry −2.0, interval 0.5, max 3.5 the ladder is
exactly [−2.0 (executed), −2.5, −3.0, −3.5] — strictly decreasing, no
duplicates, only the entry level executed, last level forced to −max — and
the SHORT mirror with entry +2.0 is exactly [2.0 (executed), 2.5, 3.0, 3.5];
`register_position` stores the ladder with exactly the first level marked
executed. -/
theorem c7_pyramid_ladder_concrete :
    calculate_pyramiding_levels { defaultRebalancerConfig with max_zscore := 7/2 } (-2)
      "LONG" =
      [{ zscore := -2, executed := true }, { zscore := -5/2, executed := false },
       { zscore := -3, executed := false }, { zscore := -7/2, executed := false }] ∧
    calculate_pyramiding_levels { defaultRebalancerConfig with max_zscore := 7/2 } 2
      "SHORT" =
      [{ zscore := 2, executed := true }, { zscore := 5/2, executed := false },
       { zscore := 3, executed := false }, { zscore := 7/2, executed := false }] ∧
    Option.map (fun p => List.map RebalanceLevel.executed (Position.levels p))
      ((register_position { defaultRebalancerConfig with max_zscore := 7/2 }
        initialRebalancerState "s" "LONG" (-2) (7179/10000) (1/100) (1/10) (3/50)
        "XAUUSD" "XAGUSD" 0).active_positions "s") = some [true, false, false, false] := by
  refine ⟨?_, ?_, ?_⟩
  · norm_num [calculate_pyramiding_levels, pyramidLoopLong, pyramidFuel,
      defaultRebalancerConfig, abs_of_nonneg, abs_of_nonpos]
  · norm_num [calculate_pyramiding_levels, pyramidLoopShort, pyramidFuel,
      defaultRebalancerConfig, abs_of_nonneg, abs_of_nonpos, String.reduceEq]
    intro h
    simp at h
  · norm_num [register_position, initialRebalancerState, calculate_pyramiding_levels,
      pyramidLoopLong, pyramidFuel, defaultRebalancerConfig, abs_of_nonneg, abs_of_nonpos]

/-- C8 counterexample: with the valid parameters step 1, min 0.6, max 10
(positive step, min ≤ max), quantizing `quantize 0 = 0.6` again yields 1, not
0.6 — idempotence fails when `min_lot` is not a multiple of `step`. -/
theorem c8_counterexample :
    ((0:ℚ) < 1 ∧ (3/5 : ℚ) ≤ 10) ∧
    quantize 1 (3/5) 10 (quantize 1 (3/5) 10 0) ≠ quantize 1 (3/5) 10 0 := by
  norm_num [quantize, rhe]

/-- C8 (amended): for positive step and min ≤ max, quantization is monotonic;
it is idempotent under the additional premise that `min_lot` and `max_lot`
are integer multiples of `step` (as broker limits are in practice). -/
theorem c8_quantize_mono_idem (step min_lot max_lot : ℚ) (hstep : 0 < step)
    (hmm : min_lot ≤ max_lot) :
    (∀ x y, x ≤ y → quantize step min_lot max_lot x ≤ quantize step min_lot max_lot y) ∧
    ((∃ a : ℤ, min_lot = a * step) → (∃ b : ℤ, max_lot = b * step) →
      ∀ x, quantize step min_lot max_lot (quantize step min_lot max_lot x) =
        quantize step min_lot max_lot x) :=
  ⟨fun _ _ h => quantize_mono hstep _ _ h, fun ha hb x => quantize_idem hstep hmm ha hb x⟩

/-- C8 witness: monotonicity and idempotence at the broker spec
step 0.01, min 0.01, max 100 (both limits multiples of the step). -/
theorem c8_witness :
    quantize (1/100) (1/100) 100 0 ≤ quantize (1/100) (1/100) 100 1 ∧
    quantize (1/100) (1/100) 100 (quantize (1/100) (1/100) 100 (1/3)) =
      quantize (1/100) (1/100) 100 (1/3) := by
  have h := c8_quantize_mono_idem (1/100) (1/100) 100 (by norm_num) (by norm_num)
  exact ⟨h.1 0 1 (by norm_num), h.2 ⟨1, by norm_num⟩ ⟨10000, by norm_num⟩ (1/3)⟩

/-- C9 counterexample: with the default thresholds, primary 0.01, actual
secondary 0.01, hedge 0.7179 does produce an adjustment (the percentage
drift ≈ 39.3% exceeds the 5% threshold although the absolute drift 0.002821
is below 0.01), so `check_hedge_drift` does not return none. -/
theorem c9_counterexample :
    check_hedge_drift defaultRebalancerConfig
      (register_position defaultRebalancerConfig initialRebalancerState "s" "LONG" (-2)
        (7179/10000) (1/100) (1/100) (1/50) "XAUUSD" "XAGUSD" 0) "s" (7179/10000) 3600 ≠
      none := by
  norm_num [check_hedge_drift, register_position, initialRebalancerState,
    calculate_pyramiding_levels, pyramidLoopLong, pyramidFuel, defaultRebalancerConfig,
    abs_of_nonneg, abs_of_nonpos]
  exact Option.some_ne_none _

/-- C9 (amended): at that input `check_hedge_drift` returns a BUY adjustment
of 0.002821/0.7179 ≈ 0.0039 lots of the primary instrument, triggered by the
percentage threshold alone. -/
theorem c9_returns_buy_primary_adjustment :
    check_hedge_drift defaultRebalancerConfig
      (register_position defaultRebalancerConfig initialRebalancerState "s" "LONG" (-2)
        (7179/10000) (1/100) (1/100) (1/50) "XAUUSD" "XAGUSD" 0) "s" (7179/10000) 3600 =
    some { spread_id := "s", symbol := "XAUUSD", action := "BUY", quantity := 2821/717900,
           old_hedge := 7179/10000, new_hedge := 7179/10000, drift_pct := 2821/7179 } := by
  norm_num [check_hedge_drift, register_position, initialRebalancerState,
    calculate_pyramiding_levels, pyramidLoopLong, pyramidFuel, defaultRebalancerConfig,
    abs_of_nonneg, abs_of_nonpos]

/-- C10: registering a position stamps the cooldown clock with the
registration time, so for any check within `min_adjustment_interval` of
registration `check_hedge_drift` returns none, whatever the current hedge
ratio (and hence whatever the drift). -/
theorem c10_cooldown_starts_at_registration (cfg : RebalancerConfig)
    (st : RebalancerState) (spread_id side : String)
    (ez ehr gl sl tps : ℚ) (psym ssym : String) (t0 now current_hr : ℚ)
    (h : now - t0 < cfg.min_adjustment_interval) :
    check_hedge_drift cfg
      (register_position cfg st spread_id side ez ehr gl sl tps psym ssym t0)
      spread_id current_hr now = none := by
  unfold check_hedge_drift register_position
  by_cases he : cfg.enable_hedge_adjustment = false
  · rw [if_pos he]
  · rw [if_neg he]
    simp [h]

/-- C10 witness: immediately after registration (10 s < 3600 s) the C2 drift
input — both thresholds exceeded — still yields no adjustment. -/
theorem c10_witness :
    defaultRebalancerConfig.hedge_drift_threshold ≤
        |(1/20 : ℚ) * (7179/10000) - 1/50| / ((1/20 : ℚ) * (7179/10000)) ∧
    defaultRebalancerConfig.min_absolute_drift ≤ |(1/20 : ℚ) * (7179/10000) - 1/50| ∧
    check_hedge_drift defaultRebalancerConfig
      (register_position defaultRebalancerConfig initialRebalancerState "s" "LONG" (-2)
        (7179/10000) (1/20) (1/50) (3/50) "XAUUSD" "XAGUSD" 0) "s" (7179/10000) 10 = none :=
  ⟨by norm_num [defaultRebalancerConfig, abs_of_nonneg],
   by norm_num [defaultRebalancerConfig, abs_of_nonneg],
   c10_cooldown_starts_at_registration defaultRebalancerConfig initialRebalancerState "s"
     "LONG" (-2) (7179/10000) (1/20) (1/50) (3/50) "XAUUSD" "XAGUSD" 0 10 (7179/10000)
     (by norm_num [defaultRebalancerConfig])⟩
